import Mathlib

/-!
Verification of the Integration-Agent post-processing and evaluation layer.

This file gives a shallow embedding of the deterministic core of the
repository: the output parser `IntegrationAgent._parse_response` and its
regex fallback `_extract_field` (src/agent.py), the trace reconstructor
`_extract_trace` (src/agent.py), and the evaluation harness
`validate_liquid_template`, `run_scenario`, `run` and the `EvalHarness`
constructor (tests/eval_harness.py).

Python strings are modelled as `List Char`; Python exceptions as explicit
`Except` results; machine floats that the claims compare exactly are
modelled as rationals.  External collaborators (`json.loads`, the Liquid
template engine) are modelled by executable Lean functions that follow the
collaborators' documented semantics on the fragment the repository
exercises; each such model is marked in its doc comment.
-/

/-- Python `str` modelled as a list of characters. -/
abbrev PyStr := List Char

/-- Literal Python strings from Lean string literals. -/
def pstr (s : String) : PyStr := s.data

/-- The backtick character (used by the markdown fences in `_parse_response`). -/
def btick : Char := Char.ofNat 96

/-- Python `str.strip()` whitespace test (space, tab, newline, CR, VT, FF). -/
def pyIsSpace (c : Char) : Bool :=
  c == ' ' || c == '\t' || c == '\n' || c == '\r' || c == '\x0b' || c == '\x0c'

/-- Python `str.strip()`: drop whitespace from both ends. -/
def pyStrip (s : PyStr) : PyStr :=
  ((s.dropWhile pyIsSpace).reverse.dropWhile pyIsSpace).reverse

/-- Index of the first occurrence of `sub` in a string (Python `str.find`,
with `none` for Python's `-1`). -/
def firstIdx (sub : PyStr) : PyStr → Option Nat
  | [] => if sub.isEmpty then some 0 else none
  | c :: rest =>
    if sub.isPrefixOf (c :: rest) then some 0
    else (firstIdx sub rest).map (· + 1)

/-- Python `str.find(sub, start)`. -/
def firstIdxFrom (sub : PyStr) (s : PyStr) (start : Nat) : Option Nat :=
  (firstIdx sub (s.drop start)).map (· + start)

/-- Python `sub in s`. -/
def pyContains (s sub : PyStr) : Bool := (firstIdx sub s).isSome

/-- Python slice `s[a:b]` (for `a ≤ b`). -/
def pySlice (s : PyStr) (a b : Nat) : PyStr := (s.drop a).take (b - a)

/-- Python `x or default` for an optional string (`None` and the empty
string are falsy). -/
def pyOrStr (x : Option PyStr) (d : PyStr) : PyStr :=
  match x with
  | none => d
  | some [] => d
  | some v => v

/-! ## Model of the structured-data parser collaborator (`json.loads`) -/

/-- JSON values as returned by the structured-data parser.  Numbers keep
their source lexeme: no claim inspects numeric values, only shapes. -/
inductive Json where
  | null : Json
  | bool (b : Bool) : Json
  | num (lexeme : PyStr) : Json
  | str (s : PyStr) : Json
  | arr (elems : List Json) : Json
  | obj (members : List (PyStr × Json)) : Json
deriving Repr

/-- JSON whitespace accepted between tokens by `json.loads`. -/
def jsonWs (c : Char) : Bool :=
  c == ' ' || c == '\t' || c == '\n' || c == '\r'

/-- Drop JSON whitespace. -/
def skipWs (s : PyStr) : PyStr := s.dropWhile jsonWs

/-- JSON string escape characters (the two-character escapes of RFC 8259,
decoded to the character each denotes). -/
def escChar (c : Char) : Option Char :=
  match c with
  | '"' => some '"'
  | '\\' => some '\\'
  | '/' => some '/'
  | 'b' => some (Char.ofNat 8)
  | 'f' => some (Char.ofNat 12)
  | 'n' => some '\n'
  | 'r' => some '\r'
  | 't' => some '\t'
  | _ => none

mutual
/-- Parse the body of a JSON string (opening quote already consumed):
returns the decoded content and the remaining input.  Raw control
characters below 0x20 are rejected, as by `json.loads` in strict mode.
`\uXXXX` escapes are outside the modelled fragment (their `u` falls to
`escChar`, a parse failure); no claim exercises them. -/
def parseJString : PyStr → Option (PyStr × PyStr)
  | [] => none
  | ch :: rest =>
    if ch == '"' then some ([], rest)
    else if ch == '\\' then parseJStringEsc rest
    else if ch.toNat < 32 then none
    else
      match parseJString rest with
      | some (s, r) => some (ch :: s, r)
      | none => none

/-- Decode the character after a backslash, then continue the string. -/
def parseJStringEsc : PyStr → Option (PyStr × PyStr)
  | [] => none
  | e :: rest2 =>
    match escChar e with
    | some c2 =>
      match parseJString rest2 with
      | some (s, r) => some (c2 :: s, r)
      | none => none
    | none => none
end

/-- Parse a JSON number, keeping the lexeme. -/
def parseNumber (s : PyStr) : Option (Json × PyStr) :=
  let (negPart, s1) : PyStr × PyStr :=
    match s with
    | '-' :: r => (['-'], r)
    | _ => ([], s)
  match s1.head? with
  | some c =>
    if c.isDigit then
      let intPart := s1.takeWhile Char.isDigit
      let s2 := s1.dropWhile Char.isDigit
      let (fracPart, s3) : PyStr × PyStr :=
        match s2 with
        | '.' :: t =>
          let ds := t.takeWhile Char.isDigit
          if ds.isEmpty then ([], s2) else ('.' :: ds, t.dropWhile Char.isDigit)
        | _ => ([], s2)
      let (expPart, s4) : PyStr × PyStr :=
        match s3 with
        | e :: t =>
          if e == 'e' || e == 'E' then
            let (sgn, t2) : PyStr × PyStr :=
              match t with
              | '+' :: u => (['+'], u)
              | '-' :: u => (['-'], u)
              | _ => ([], t)
            let ds := t2.takeWhile Char.isDigit
            if ds.isEmpty then ([], s3)
            else (e :: (sgn ++ ds), t2.dropWhile Char.isDigit)
          else ([], s3)
        | _ => ([], s3)
      some (.num (negPart ++ intPart ++ fracPart ++ expPart), s4)
    else none
  | none => none

mutual
/-- Parse one JSON value (fuel bounds recursion depth / member count). -/
def parseValue : Nat → PyStr → Option (Json × PyStr)
  | 0, _ => none
  | fuel + 1, s =>
    match skipWs s with
    | '"' :: rest =>
      match parseJString rest with
      | some (str, r) => some (.str str, r)
      | none => none
    | '{' :: rest =>
      match skipWs rest with
      | '}' :: r2 => some (.obj [], r2)
      | r2 =>
        match parseMembers fuel r2 with
        | some (ms, r3) => some (.obj ms, r3)
        | none => none
    | '[' :: rest =>
      match skipWs rest with
      | ']' :: r2 => some (.arr [], r2)
      | r2 =>
        match parseElements fuel r2 with
        | some (es, r3) => some (.arr es, r3)
        | none => none
    | 't' :: 'r' :: 'u' :: 'e' :: rest => some (.bool true, rest)
    | 'f' :: 'a' :: 'l' :: 's' :: 'e' :: rest => some (.bool false, rest)
    | 'n' :: 'u' :: 'l' :: 'l' :: rest => some (.null, rest)
    | rest => parseNumber rest

/-- Parse the members of a non-empty JSON object, up to and including the
closing brace. -/
def parseMembers : Nat → PyStr → Option (List (PyStr × Json) × PyStr)
  | 0, _ => none
  | fuel + 1, s =>
    match skipWs s with
    | '"' :: rest =>
      match parseJString rest with
      | some (key, r1) =>
        match skipWs r1 with
        | ':' :: r2 =>
          match parseValue fuel r2 with
          | some (v, r3) =>
            match skipWs r3 with
            | ',' :: r4 =>
              match parseMembers fuel r4 with
              | some (ms, r5) => some ((key, v) :: ms, r5)
              | none => none
            | '}' :: r4 => some ([(key, v)], r4)
            | _ => none
          | none => none
        | _ => none
      | none => none
    | _ => none

/-- Parse the elements of a non-empty JSON array, up to and including the
closing bracket. -/
def parseElements : Nat → PyStr → Option (List Json × PyStr)
  | 0, _ => none
  | fuel + 1, s =>
    match parseValue fuel s with
    | some (v, r1) =>
      match skipWs r1 with
      | ',' :: r2 =>
        match parseElements fuel r2 with
        | some (es, r3) => some (v :: es, r3)
        | none => none
      | ']' :: r2 => some ([v], r2)
      | _ => none
    | none => none
end

/-- Model of the structured-data parser collaborator `json.loads`:
parse a full document, requiring all input consumed (trailing JSON
whitespace allowed); an error carries a diagnostic message (the message
text is the model's own, no claim depends on it). -/
def jsonLoads (s : PyStr) : Except PyStr Json :=
  match parseValue (s.length + 1) s with
  | some (v, rest) =>
    if (skipWs rest).isEmpty then .ok v else .error (pstr "Extra data")
  | none => .error (pstr "Expecting value")

/-- Python `dict.get(key, default)` on an object produced by `json.loads`
(later duplicate keys overwrite earlier ones, so lookup takes the last
match). -/
def dictGet (ms : List (PyStr × Json)) (key : PyStr) (d : Json) : Json :=
  match ms.reverse.find? (fun m => m.1 == key) with
  | some m => m.2
  | none => d

/-! ## Data model (src/models.py) -/

/-- A Python `dict` holding JSON-like values. -/
abbrev PyDict := List (PyStr × Json)

/-- Record of a single tool invocation (`models.ToolCall`). -/
structure ToolCall where
  tool_name : PyStr
  tool_input : PyDict
  tool_output : PyStr
  duration_ms : ℚ := 0

/-- A single step in the agent's reasoning process (`models.ThoughtStep`).
`action_input` is `None` or the tool's argument mapping. -/
structure ThoughtStep where
  step_number : Nat
  thought : Option PyStr := none
  action : Option PyStr := none
  action_input : Option PyDict := none
  observation : Option PyStr := none

/-- Complete trace of agent execution (`models.AgentTrace`). -/
structure AgentTrace where
  steps : List ThoughtStep := []
  tool_calls : List ToolCall := []
  total_duration_ms : ℚ := 0
  model_name : PyStr := []
  token_usage : PyDict := []

/-- Response structure of the agent (`models.AgentResponse`). -/
structure AgentResponse where
  selected_action : PyStr
  reasoning : PyStr
  proposed_config : PyStr
  trace : Option AgentTrace := none

/-- Python exceptions that the embedded code can raise (beyond the
`json.JSONDecodeError` that `_parse_response` itself catches). -/
inductive PyExn where
  | attributeError
  | validationError
  | zeroDivisionError
deriving Repr, DecidableEq

/-! ## `IntegrationAgent._parse_response` and `_extract_field` (src/agent.py) -/

/-- The opening fence `_parse_response` looks for first. -/
def fenceJson : PyStr := pstr "```json"

/-- A plain markdown fence. -/
def fence : PyStr := pstr "```"

/-- Start index of the first match of `re.search(r'^\s*\x7b', output,
re.MULTILINE)`: the first position that begins a line and is followed by
(possibly multi-line) whitespace and then `\x7b`.  `atLineStart` says
whether the current position starts a line; `i` is the current index. -/
def lineStartBraceAux (atLineStart : Bool) (i : Nat) : PyStr → Option Nat
  | [] => none
  | c :: rest =>
    if atLineStart && (match (c :: rest).dropWhile pyIsSpace with
                       | '{' :: _ => true
                       | _ => false) then
      some i
    else lineStartBraceAux (c == '\n') (i + 1) rest

/-- See `lineStartBraceAux`; the scan starts at index 0, which starts a line. -/
def lineStartBrace (s : PyStr) : Option Nat := lineStartBraceAux true 0 s

/-- The `json_str` candidate computed by `_parse_response`: text of the
first ```json fenced block, else of the first plain fenced block (in both
cases up to the next fence, or the rest of the text when none), else the
remainder of the text from the first line-start `\x7b`, else the whole
text; always stripped. -/
def candidate (output : PyStr) : PyStr :=
  match firstIdx fenceJson output with
  | some i =>
    let start := i + 7
    match firstIdxFrom fence output start with
    | none => pyStrip (output.drop start)
    | some e => pyStrip (pySlice output start e)
  | none =>
    match firstIdx fence output with
    | some i =>
      let start := i + 3
      match firstIdxFrom fence output start with
      | none => pyStrip (output.drop start)
      | some e => pyStrip (pySlice output start e)
    | none =>
      match lineStartBrace output with
      | some i => pyStrip (output.drop i)
      | none => pyStrip output

/-- Tail of `_extract_field`'s regex after the opening quote of the value:
`[^"]*(?:\\.[^"]*)*"`.  Because `[^"]` also matches a backslash, the
greedy first part always extends to the character just before the next
quote and the non-capturing group can never start, so the capture is
exactly the run of non-quote characters, and a closing quote must exist. -/
def matchValue (s : PyStr) : Option PyStr :=
  match s.dropWhile (fun c => c != '"') with
  | '"' :: _ => some (s.takeWhile (fun c => c != '"'))
  | _ => none

/-- One attempted match of `_extract_field`'s regex
`"field"\s*:\s*"([^"]*(?:\\.[^"]*)*)"` at the start of `s`. -/
def matchField (field : PyStr) (s : PyStr) : Option PyStr :=
  if (('"' :: field) ++ ['"']).isPrefixOf s then
    let s1 := s.drop (field.length + 2)
    match s1.dropWhile pyIsSpace with
    | ':' :: s3 =>
      match s3.dropWhile pyIsSpace with
      | '"' :: s5 => matchValue s5
      | _ => none
    | _ => none
  else none

/-- Python `re.search`: try the pattern at every position, left to right. -/
def regexSearch (field : PyStr) : PyStr → Option PyStr
  | [] => none
  | c :: rest =>
    match matchField field (c :: rest) with
    | some v => some v
    | none => regexSearch field rest

/-- Python `str.replace(p₁p₂, r)` for a two-character pattern replaced by
one character, scanning left to right without overlap. -/
def replacePair (p1 p2 : Char) (r : Char) : PyStr → PyStr
  | [] => []
  | [c] => [c]
  | c1 :: c2 :: rest =>
    if c1 == p1 && c2 == p2 then r :: replacePair p1 p2 r rest
    else c1 :: replacePair p1 p2 r (c2 :: rest)

/-- The unescaping `_extract_field` applies to the captured group:
`.replace('\\"', '"').replace('\\n', '\n')`. -/
def unescapeField (s : PyStr) : PyStr :=
  replacePair '\\' 'n' '\n' (replacePair '\\' '"' '"' s)

/-- The regex fallback `IntegrationAgent._extract_field(text, field_name)`. -/
def extract_field (text field : PyStr) : Option PyStr :=
  (regexSearch field text).map unescapeField

/-- The output parser `IntegrationAgent._parse_response(output)`.  The Python `try` block
catches only `json.JSONDecodeError` and `KeyError`; when `json.loads`
succeeds on a non-object document, the subsequent `data.get` raises an
uncaught `AttributeError`, and when a present field's value is not a
string, the `AgentResponse(...)` pydantic constructor raises an uncaught
`ValidationError`.  Both escape the function and are modelled as
`Except.error`. -/
def parse_response (output : PyStr) : Except PyExn AgentResponse :=
  let json_str := candidate output
  match jsonLoads json_str with
  | .ok data =>
    match data with
    | .obj members =>
      match dictGet members (pstr "selected_action") (.str (pstr "unknown")),
            dictGet members (pstr "reasoning") (.str (pstr "No reasoning provided")),
            dictGet members (pstr "proposed_config") (.str (pstr "\x7b\x7d")) with
      | .str sa, .str rs, .str pc =>
        .ok { selected_action := sa, reasoning := rs, proposed_config := pc }
      | _, _, _ => .error .validationError
    | _ => .error .attributeError
  | .error e =>
    let sa := pyOrStr (extract_field output (pstr "selected_action")) (pstr "parse_error")
    let rs := pyOrStr (extract_field output (pstr "reasoning"))
        (pstr "Parse failed: " ++ e)
    let pc := pyOrStr (extract_field output (pstr "proposed_config")) (pstr "\x7b\x7d")
    if sa ≠ pstr "parse_error" then
      .ok { selected_action := sa, reasoning := rs, proposed_config := pc }
    else
      .ok { selected_action := pstr "parse_error",
            reasoning := pstr "Failed to parse agent output: " ++ e ++
              pstr "\nRaw output: " ++ output.take 500,
            proposed_config := pstr "\x7b\x7d" }

/-! ## `IntegrationAgent._extract_trace` and `_infer_thought` (src/agent.py) -/

/-- Python `str()` of a JSON-like value as interpolated into an f-string.
Container reprs are abbreviated: no claim inspects those characters. -/
def jsonPyStr (v : Json) : PyStr :=
  match v with
  | .str s => s
  | .num l => l
  | .bool true => pstr "True"
  | .bool false => pstr "False"
  | .null => pstr "None"
  | .arr _ => pstr "[...]"
  | .obj _ => pstr "\x7b...\x7d"

/-- The thought lookup table `IntegrationAgent._infer_thought(tool_name, tool_args)`. -/
def infer_thought (tool_name : PyStr) (tool_args : PyDict) : PyStr :=
  if tool_name = pstr "get_available_actions" then
    pstr "I need to see what integration actions are available to handle this request."
  else if tool_name = pstr "retrieve_api_documentation" then
    let action_id := dictGet tool_args (pstr "action_id") (.str (pstr "the selected action"))
    pstr "Now I need to retrieve the API documentation for '" ++ jsonPyStr action_id ++
      pstr "' to understand the required payload structure."
  else if tool_name = pstr "search_actions" then
    let query := dictGet tool_args (pstr "query") (.str [])
    pstr "Searching for actions matching '" ++ jsonPyStr query ++
      pstr "' to find the best fit."
  else
    pstr "Calling " ++ tool_name ++ pstr " to gather more information."

/-- A tool invocation attached to an AI message; the fields mirror the
dict keys read via `tc.get('name', 'unknown')`, `tc.get('args', \x7b\x7d)` and
`tc.get('id', '')`. -/
structure ToolCallReq where
  name : Option PyStr := none
  args : Option PyDict := none
  id : Option PyStr := none

/-- The LangChain message transcript consumed by `_extract_trace`.
`content` is already the Python `msg.content if msg.content else ""`
(the empty string standing for a missing/falsy content). -/
inductive Message where
  | system (content : PyStr)
  | human (content : PyStr)
  | ai (content : PyStr) (tool_calls : List ToolCallReq)
  | tool (tool_call_id : PyStr) (name : PyStr) (content : PyStr)

/-- Python dict write `m[k] = v` (later writes shadow earlier ones). -/
def alistSet (m : List (PyStr × α)) (k : PyStr) (v : α) : List (PyStr × α) :=
  (k, v) :: m

/-- Python dict read returning the latest binding, `none` when absent. -/
def alistGet (m : List (PyStr × α)) (k : PyStr) : Option α :=
  (m.find? (fun p => p.1 == k)).map (·.2)

/-- Loop state of `_extract_trace`: the accumulated `steps`,
`tool_calls_list`, the `step_number` counter and the
`pending_tool_calls` correlation map (id ↦ (step, index into steps)). -/
structure TraceState where
  steps : List ThoughtStep
  tool_calls_list : List ToolCall
  step_number : Nat
  pending : List (PyStr × (ThoughtStep × Nat))

/-- The body of the `for tc in tool_calls` loop inside the AI-message
branch of `_extract_trace`: one ThoughtStep per invocation, recorded in
the `pending_tool_calls` correlation map under its id. -/
def aiToolStep (s : TraceState) (tc : ToolCallReq) : TraceState :=
  let tool_name := tc.name.getD (pstr "unknown")
  let tool_args := tc.args.getD []
  let tool_id := tc.id.getD []
  let step : ThoughtStep :=
    { step_number := s.step_number,
      thought := some (infer_thought tool_name tool_args),
      action := some (pstr "Call tool: " ++ tool_name),
      action_input := some tool_args,
      observation := none }
  { s with
    steps := s.steps ++ [step],
    pending := alistSet s.pending tool_id (step, s.steps.length),
    step_number := s.step_number + 1 }

/-- The AI-message branch of `_extract_trace`: a textual message with no
tool calls becomes a terminal "Final Answer" step (content truncated to
200 characters); then every carried tool invocation is processed in
order. -/
def aiStep (st : TraceState) (content : PyStr) (tool_calls : List ToolCallReq) :
    TraceState :=
  let st1 :=
    if content ≠ [] ∧ tool_calls.isEmpty then
      let obs := if content.length > 200 then content.take 200 ++ pstr "..." else content
      { st with
        steps := st.steps ++ [{ step_number := st.step_number,
                                thought := some (pstr "Generating final response"),
                                action := some (pstr "Final Answer"),
                                action_input := none,
                                observation := some obs }],
        step_number := st.step_number + 1 }
    else st
  tool_calls.foldl aiToolStep st1

/-- The tool-message branch of `_extract_trace`: a matched result fills
the pending step's observation (truncated to 500 characters) and is
recorded in `tool_calls_list`.  The unmatched branch evaluates
`pending_tool_calls.get(tool_id, (\x7b\x7d, 0))[0].action_input`: the default's
first component is a plain dict, which has no `action_input` attribute,
so Python raises an uncaught `AttributeError` there. -/
def toolStep (st : TraceState) (tool_call_id name content : PyStr) :
    Except PyExn TraceState :=
  let truncated := if content.length > 500 then content.take 500 ++ pstr "..." else content
  let st1 :=
    match alistGet st.pending tool_call_id with
    | some (_, idx) =>
      match st.steps.get? idx with
      | some step0 =>
        { st with steps := st.steps.set idx { step0 with observation := some truncated } }
      | none => st
    | none => st
  match alistGet st.pending tool_call_id with
  | some (step, _) =>
    let tool_input : PyDict :=
      match step.action_input with
      | some args => if args.isEmpty then [] else args
      | none => []
    .ok { st1 with
          tool_calls_list := st1.tool_calls_list ++
            [{ tool_name := name, tool_input := tool_input,
               tool_output := truncated, duration_ms := 0 }] }
  | none => .error .attributeError

/-- One iteration of the `for msg in messages` loop of `_extract_trace`:
system and user inputs are skipped; AI and tool messages are handled by
`aiStep` and `toolStep`. -/
def processMessage (st : TraceState) (msg : Message) : Except PyExn TraceState :=
  match msg with
  | .system _ => .ok st
  | .human _ => .ok st
  | .ai content tool_calls => .ok (aiStep st content tool_calls)
  | .tool tool_call_id name content => toolStep st tool_call_id name content

/-- The trace reconstructor `IntegrationAgent._extract_trace(messages, total_duration_ms)`
(`model_name` is the instance attribute `self.model_name`). -/
def extract_trace (messages : List Message) (total_duration_ms : ℚ)
    (model_name : PyStr) : Except PyExn AgentTrace :=
  (messages.foldlM processMessage
      { steps := [], tool_calls_list := [], step_number := 1, pending := [] }).map
    (fun st =>
      { steps := st.steps, tool_calls := st.tool_calls_list,
        total_duration_ms := total_duration_ms, model_name := model_name,
        token_usage := [] })

/-! ## Model of the template-engine collaborator (python-liquid `Template`) -/

/-- A compiled Liquid template node: literal character or `\x7b\x7b var \x7d\x7d`
output. -/
inductive LiquidNode where
  | lit (c : Char)
  | out (var : PyStr)

/-- Liquid identifier characters. -/
def isIdentChar (c : Char) : Bool := c.isAlphanum || c == '_'

/-- A Liquid variable name. -/
def isIdent (s : PyStr) : Bool :=
  match s with
  | [] => false
  | c :: rest => (c.isAlpha || c == '_') && rest.all isIdentChar

/-- Model of `liquid.Template(text)` for the fragment the repository
exercises: literal text and `\x7b\x7b variable \x7d\x7d` outputs.  Following
Liquid's lexer, a `\x7b` not followed by `\x7b` or `%` is plain text; an
unterminated `\x7b\x7b` or a non-identifier expression is a syntax error
(`none`); `\x7b% ... %\x7d` tags are outside the modelled fragment and
reported as errors. -/
def liquidParseAux : Nat → PyStr → Option (List LiquidNode)
  | 0, _ => none
  | _ + 1, [] => some []
  | fuel + 1, '{' :: '{' :: rest =>
    (match firstIdx (pstr "\x7d\x7d") rest with
     | none => none
     | some i =>
       let expr := pyStrip (rest.take i)
       if isIdent expr then
         match liquidParseAux fuel (rest.drop (i + 2)) with
         | some ns => some (.out expr :: ns)
         | none => none
       else none)
  | _ + 1, '{' :: '%' :: _ => none
  | fuel + 1, c :: rest =>
    match liquidParseAux fuel rest with
    | some ns => some (.lit c :: ns)
    | none => none

/-- See `liquidParseAux`; every step consumes at least one character, so
`length + 1` fuel always suffices. -/
def liquidParse (s : PyStr) : Option (List LiquidNode) :=
  liquidParseAux (s.length + 1) s

/-- How a bound value renders inside a Liquid output (strings as-is,
numbers by their lexeme, `nil`/undefined as empty; container rendering is
abbreviated, no claim exercises it). -/
def liquidToStr (v : Json) : PyStr :=
  match v with
  | .str s => s
  | .num l => l
  | .bool true => pstr "true"
  | .bool false => pstr "false"
  | .null => []
  | .arr _ => pstr "[...]"
  | .obj _ => pstr "\x7b...\x7d"

/-- Model of `CompiledTemplate.render(**variables)`: substitute each
output; an unbound variable is `Undefined` and renders as the empty
string (python-liquid's default mode). -/
def liquidRender (ns : List LiquidNode) (vars : PyDict) : PyStr :=
  match ns with
  | [] => []
  | .lit c :: rest => c :: liquidRender rest vars
  | .out v :: rest =>
    (match vars.find? (fun p => p.1 == v) with
     | some p => liquidToStr p.2
     | none => []) ++ liquidRender rest vars

/-! ## Evaluation harness (tests/eval_harness.py) -/

/-- A scenario `context` dict: always carries `user_input` and
`variables` keys. -/
structure PyContext where
  user_input : PyStr := []
  «variables» : PyDict := []

/-- A single test scenario (`eval_harness.TestScenario`). -/
structure TestScenario where
  request : PyStr
  expected_action : PyStr
  context : PyContext
  description : PyStr := []

/-- Result of running one scenario (`eval_harness.ScenarioResult`), with
its dataclass defaults. -/
structure ScenarioResult where
  scenario_id : Nat
  request : PyStr
  expected_action : PyStr
  actual_action : Option PyStr := none
  action_correct : Bool := false
  liquid_valid : Bool := false
  renders_to_json : Bool := false
  reasoning : PyStr := []
  proposed_config : PyStr := []
  rendered_config : Option PyStr := none
  latency_ms : ℚ := 0
  error : Option PyStr := none

/-- The template validator `EvalHarness.validate_liquid_template(config_str, context)`: the
first `try` compiles and renders; any Liquid failure lands in the
catch-all and yields `(False, False, None)`; a `json.JSONDecodeError`
re-compiles and re-renders (deterministically, to the same text) and
yields `(True, False, rendered)`. -/
def validate_liquid_template (config_str : PyStr) (context : PyContext) :
    Bool × Bool × Option PyStr :=
  match liquidParse config_str with
  | none => (false, false, none)
  | some t =>
    let rendered := liquidRender t context.«variables»
    match jsonLoads rendered with
    | .ok _ => (true, true, some rendered)
    | .error _ =>
      match liquidParse config_str with
      | some t2 => (true, false, some (liquidRender t2 context.«variables»))
      | none => (false, false, none)

/-- The scenario runner `EvalHarness.run_scenario(scenario, scenario_id, agent_fn)`.
The agent function is an external capability that may raise (modelled by
`Except` with the stringified exception); `elapsed_ms` is the wall-clock
measurement `(end_time - start_time) * 1000` taken around the successful
call, an input of the model.  On an exception nothing after the
`agent_fn` call executes: the result keeps its defaults, with `error`
set to the stringified exception and `latency_ms = 0.0`. -/
def run_scenario (scenario : TestScenario) (scenario_id : Nat)
    (agent_fn : PyStr → PyContext → Except PyStr AgentResponse)
    (elapsed_ms : ℚ) : ScenarioResult :=
  let result : ScenarioResult :=
    { scenario_id := scenario_id, request := scenario.request,
      expected_action := scenario.expected_action }
  match agent_fn scenario.request scenario.context with
  | .ok response =>
    let v := validate_liquid_template response.proposed_config scenario.context
    { result with
      latency_ms := elapsed_ms,
      actual_action := some response.selected_action,
      reasoning := response.reasoning,
      proposed_config := response.proposed_config,
      action_correct := response.selected_action == scenario.expected_action,
      liquid_valid := v.1,
      renders_to_json := v.2.1,
      rendered_config := v.2.2 }
  | .error e => { result with error := some e, latency_ms := 0 }

/-- The scenario loop of `EvalHarness.run`: each scenario is run with its
index, results collected in order (`elapsed` gives each successful call's
wall-clock measurement). -/
def runScenarios (scenarios : List TestScenario)
    (agent_fn : PyStr → PyContext → Except PyStr AgentResponse)
    (elapsed : Nat → ℚ) : List ScenarioResult :=
  scenarios.enum.map (fun p => run_scenario p.2 p.1 agent_fn (elapsed p.1))

/-- The five aggregate metrics of `EvalHarness.run`. -/
structure Metrics where
  action_accuracy : ℚ
  liquid_valid : ℚ
  renders_to_json : ℚ
  avg_latency_ms : ℚ
  error_rate : ℚ
deriving Repr, DecidableEq

/-- The metrics dict computed at the end of `EvalHarness.run`.  The four
success-subset metrics are guarded by `if successful else 0`, but
`error_rate` divides by `len(scenario_results)` unconditionally: on an
empty results list Python raises `ZeroDivisionError` while building the
dict, modelled as `Except.error`. -/
def computeMetrics (scenario_results : List ScenarioResult) : Except PyExn Metrics :=
  let successful := scenario_results.filter (fun r => r.error.isNone)
  if scenario_results.isEmpty then .error .zeroDivisionError
  else
    .ok
      { action_accuracy :=
          if successful.isEmpty then 0
          else ((successful.filter (fun r => r.action_correct)).length : ℚ) /
            successful.length * 100,
        liquid_valid :=
          if successful.isEmpty then 0
          else ((successful.filter (fun r => r.liquid_valid)).length : ℚ) /
            successful.length * 100,
        renders_to_json :=
          if successful.isEmpty then 0
          else ((successful.filter (fun r => r.renders_to_json)).length : ℚ) /
            successful.length * 100,
        avg_latency_ms :=
          if successful.isEmpty then 0
          else (successful.map (fun r => r.latency_ms)).sum / successful.length,
        error_rate :=
          ((scenario_results.filter (fun r => r.error.isSome)).length : ℚ) /
            scenario_results.length * 100 }

/-- Complete evaluation results (`eval_harness.EvalResults`). -/
structure EvalResults where
  timestamp : PyStr
  git_sha : PyStr
  prompt_hash : PyStr
  total_scenarios : Nat
  metrics : Metrics
  details : List ScenarioResult

/-- The full run `EvalHarness.run(agent_fn)`: run every scenario, then
aggregate. -/
def harnessRun (scenarios : List TestScenario)
    (agent_fn : PyStr → PyContext → Except PyStr AgentResponse)
    (elapsed : Nat → ℚ) (timestamp git_sha prompt_hash : PyStr) :
    Except PyExn EvalResults :=
  let rs := runScenarios scenarios agent_fn elapsed
  (computeMetrics rs).map (fun m =>
    { timestamp := timestamp, git_sha := git_sha, prompt_hash := prompt_hash,
      total_scenarios := scenarios.length, metrics := m, details := rs })

/-- The twelve built-in test scenarios `EvalHarness.DEFAULT_SCENARIOS`
(tests/eval_harness.py), embedded with their full contexts. -/
def DEFAULT_SCENARIOS : List TestScenario := [
  { request := pstr "Post the summary to Slack",
    expected_action := pstr "slack_post_message",
    context :=
      { user_input := pstr "Post the summary to Slack",
        «variables» := [
          (pstr "summary", .str (pstr "Found 3 products. Average price: $91.66. Lowest: USB-C Hub ($45.00)")),
          (pstr "slack_channel", .str (pstr "#product-alerts")),
          (pstr "scraper_results", .arr [
            .obj [(pstr "name", .str (pstr "Wireless Headphones")),
                  (pstr "price", .num (pstr "79.99")),
                  (pstr "url", .str (pstr "https://store.example.com/p/1001"))]])] },
    description := pstr "Simple variable interpolation for Slack message" },
  { request := pstr "Add these products to my Notion database",
    expected_action := pstr "notion_create_page",
    context :=
      { user_input := pstr "Add these products to my Notion database",
        «variables» := [
          (pstr "scraper_results", .arr [
            .obj [(pstr "name", .str (pstr "Wireless Headphones")),
                  (pstr "price", .num (pstr "79.99")),
                  (pstr "url", .str (pstr "https://store.example.com/p/1001"))],
            .obj [(pstr "name", .str (pstr "USB-C Hub")),
                  (pstr "price", .num (pstr "45.0")),
                  (pstr "url", .str (pstr "https://store.example.com/p/1002"))],
            .obj [(pstr "name", .str (pstr "Mechanical Keyboard")),
                  (pstr "price", .num (pstr "149.99")),
                  (pstr "url", .str (pstr "https://store.example.com/p/1003"))]]),
          (pstr "notion_database_id", .str (pstr "8a3b1c4d-5e6f-7a8b-9c0d-1e2f3a4b5c6d"))] },
    description := pstr "Array loop for creating Notion pages" },
  { request := pstr "Create a GitHub issue for the failed scrape",
    expected_action := pstr "github_create_issue",
    context :=
      { user_input := pstr "Create a GitHub issue for the failed scrape",
        «variables» := [
          (pstr "summary", .str (pstr "Scrape failed: Connection timeout after 30s. URL: https://store.example.com")),
          (pstr "error_details", .str (pstr "TimeoutError: Request exceeded 30000ms"))] },
    description := pstr "String interpolation for GitHub issue" },
  { request := pstr "Add these results to the existing spreadsheet",
    expected_action := pstr "google_sheets_append",
    context :=
      { user_input := pstr "Add these results to the existing spreadsheet",
        «variables» := [
          (pstr "scraper_results", .arr [
            .obj [(pstr "name", .str (pstr "Wireless Headphones")),
                  (pstr "price", .num (pstr "79.99")),
                  (pstr "url", .str (pstr "https://store.example.com/p/1001"))],
            .obj [(pstr "name", .str (pstr "USB-C Hub")),
                  (pstr "price", .num (pstr "45.0")),
                  (pstr "url", .str (pstr "https://store.example.com/p/1002"))]]),
          (pstr "spreadsheet_id", .str (pstr "1BxiMVs0XRA5nFMdKvBdBZjgmUUqptlbs74OgvE2upms"))] },
    description := pstr "Array loop for appending to existing spreadsheet" },
  { request := pstr "Update the Notion block with the new status message",
    expected_action := pstr "notion_update_block",
    context :=
      { user_input := pstr "Update the Notion block with the new status message",
        «variables» := [
          (pstr "block_id", .str (pstr "b1c2d3e4-5f6a-7b8c-9d0e-1f2a3b4c5d6e")),
          (pstr "new_content", .str (pstr "Status: Completed ✅ - All tasks finished successfully.")),
          (pstr "status", .str (pstr "completed"))] },
    description := pstr "Notion block update with text content" },
  { request := pstr "Create a record in my Airtable base with the product data",
    expected_action := pstr "airtable_create_record",
    context :=
      { user_input := pstr "Create a record in my Airtable base with the product data",
        «variables» := [
          (pstr "base_id", .str (pstr "appXYZ123456789")),
          (pstr "table_name", .str (pstr "Products")),
          (pstr "product_data", .obj [
            (pstr "name", .str (pstr "New Product")),
            (pstr "price", .num (pstr "99.99")),
            (pstr "category", .str (pstr "Electronics")),
            (pstr "in_stock", .bool true)])] },
    description := pstr "Airtable record creation with product fields" },
  { request := pstr "Add this lead as a contact in HubSpot",
    expected_action := pstr "hubspot_create_contact",
    context :=
      { user_input := pstr "Add this lead as a contact in HubSpot",
        «variables» := [
          (pstr "lead", .obj [
            (pstr "email", .str (pstr "john.smith@acmecorp.com")),
            (pstr "first_name", .str (pstr "John")),
            (pstr "last_name", .str (pstr "Smith")),
            (pstr "company", .str (pstr "Acme Corporation")),
            (pstr "job_title", .str (pstr "VP of Engineering")),
            (pstr "phone", .str (pstr "+1-555-123-4567"))])] },
    description := pstr "HubSpot contact creation with lead data" },
  { request := pstr "Create a Trello card for this task",
    expected_action := pstr "trello_create_card",
    context :=
      { user_input := pstr "Create a Trello card for this task",
        «variables» := [
          (pstr "list_id", .str (pstr "5f1a2b3c4d5e6f7a8b9c0d1e")),
          (pstr "task", .obj [
            (pstr "name", .str (pstr "Review pull request #42")),
            (pstr "description", .str (pstr "Code review needed for the authentication module updates")),
            (pstr "due_date", .str (pstr "2024-01-15T17:00:00Z"))])] },
    description := pstr "Trello card creation with task details" },
  { request := pstr "Create a Jira ticket for this bug",
    expected_action := pstr "jira_create_issue",
    context :=
      { user_input := pstr "Create a Jira ticket for this bug",
        «variables» := [
          (pstr "project_key", .str (pstr "PROJ")),
          (pstr "bug", .obj [
            (pstr "summary", .str (pstr "Login page returns 500 error on mobile")),
            (pstr "description", .str (pstr "Users on iOS Safari cannot log in. Error occurs after entering credentials.")),
            (pstr "priority", .str (pstr "High"))]),
          (pstr "labels", .arr [.str (pstr "mobile"), .str (pstr "urgent"), .str (pstr "login")])] },
    description := pstr "Jira issue creation for bug tracking" },
  { request := pstr "Create a new customer in Stripe for this signup",
    expected_action := pstr "stripe_create_customer",
    context :=
      { user_input := pstr "Create a new customer in Stripe for this signup",
        «variables» := [
          (pstr "customer", .obj [
            (pstr "email", .str (pstr "newuser@example.com")),
            (pstr "name", .str (pstr "Jane Doe")),
            (pstr "phone", .str (pstr "+1-555-987-6543"))]),
          (pstr "plan", .str (pstr "premium")),
          (pstr "signup_source", .str (pstr "landing_page"))] },
    description := pstr "Stripe customer creation with metadata" },
  { request := pstr "Send an email notification via SendGrid about the order",
    expected_action := pstr "sendgrid_send_email",
    context :=
      { user_input := pstr "Send an email notification via SendGrid about the order",
        «variables» := [
          (pstr "recipient", .obj [
            (pstr "email", .str (pstr "customer@example.com")),
            (pstr "name", .str (pstr "John Customer"))]),
          (pstr "order", .obj [
            (pstr "id", .str (pstr "ORD-12345")),
            (pstr "total", .str (pstr "$149.99")),
            (pstr "status", .str (pstr "shipped"))]),
          (pstr "from_email", .str (pstr "orders@store.com")),
          (pstr "from_name", .str (pstr "Store Notifications"))] },
    description := pstr "SendGrid email for order notification" },
  { request := pstr "Send an SMS alert via Twilio about the system status",
    expected_action := pstr "twilio_send_sms",
    context :=
      { user_input := pstr "Send an SMS alert via Twilio about the system status",
        «variables» := [
          (pstr "alert_phone", .str (pstr "+14155551234")),
          (pstr "twilio_number", .str (pstr "+14155559876")),
          (pstr "alert", .obj [
            (pstr "type", .str (pstr "warning")),
            (pstr "message", .str (pstr "CPU usage exceeded 90% on production server")),
            (pstr "timestamp", .str (pstr "2024-01-08T14:30:00Z"))])] },
    description := pstr "Twilio SMS for system alerts" }]

/-- The constructor assignment of `EvalHarness.__init__(scenarios)`:
`self.scenarios = scenarios or self.DEFAULT_SCENARIOS`.  Python's `or`
falls back whenever the argument is falsy, which holds both for `None`
and for an explicitly passed empty list. -/
def initScenarios (scenarios : Option (List TestScenario)) : List TestScenario :=
  match scenarios with
  | none => DEFAULT_SCENARIOS
  | some l => if l.isEmpty then DEFAULT_SCENARIOS else l

/-- A 4-scenario batch: 3 error-free results of which 2 have
`action_correct`, plus one errored result. -/
def c3Demo : List ScenarioResult := [
  { scenario_id := 0, request := [], expected_action := [], action_correct := true },
  { scenario_id := 1, request := [], expected_action := [], action_correct := true },
  { scenario_id := 2, request := [], expected_action := [] },
  { scenario_id := 3, request := [], expected_action := [], error := some (pstr "boom") }]

/-- A mock scenario used only to witness C5. -/
def c5Scenario (req : String) : TestScenario :=
  { request := pstr req, expected_action := pstr "a", context := {} }

/-- A mock agent function used only to witness C5: raises exactly on the
request `"r2"`. -/
def c5AgentFn (req : PyStr) (_ : PyContext) : Except PyStr AgentResponse :=
  if req == pstr "r2" then .error (pstr "boom")
  else .ok { selected_action := pstr "a", reasoning := [], proposed_config := pstr "\x7b\x7d" }

/-- A character that needs no JSON escaping and is not a quote, a
backslash or a backtick: field values built from such characters appear
verbatim in the JSON document. -/
def benignChar (ch : Char) : Prop :=
  ch ≠ '"' ∧ ch ≠ '\\' ∧ ch ≠ btick ∧ 32 ≤ ch.toNat

/-- A string of benign characters. -/
def benign (s : PyStr) : Prop := ∀ ch ∈ s, benignChar ch

instance : DecidablePred benignChar := fun ch => by
  unfold benignChar; infer_instance

instance : DecidablePred benign := fun s => by
  unfold benign; infer_instance

/-- The raw text of the claim's well-formed JSON object
`\x7b"selected_action":"A","reasoning":"R","proposed_config":"C"\x7d`. -/
def jsonOf (a r c : PyStr) : PyStr :=
  pstr "\x7b\"selected_action\":\"" ++
    (a ++ (pstr "\",\"reasoning\":\"" ++
      (r ++ (pstr "\",\"proposed_config\":\"" ++ (c ++ pstr "\"\x7d")))))

/-! ## Claim theorems -/

/-- C1: the spec says `_parse_response` never raises for any raw text.
The code catches only `json.JSONDecodeError` and `KeyError`; on the input
`"[1, 2, 3]"` the structured parse succeeds with a list, and the
subsequent `data.get("selected_action", ...)` raises an uncaught
`AttributeError` (a list has no `get`), so the function does raise.
This theorem evaluates the code at the failing input. -/
theorem claim_C1 :
    jsonLoads (candidate (pstr "[1, 2, 3]")) =
      .ok (.arr [.num ['1'], .num ['2'], .num ['3']]) ∧
    parse_response (pstr "[1, 2, 3]") = .error .attributeError :=
  ⟨rfl, rfl⟩

/-- C2: the spec says a tool-result event whose correlation id was never
issued still appears in `tool_calls` with `tool_input = \x7b\x7d` and does not
crash reconstruction.  In the code the unmatched branch evaluates
`pending_tool_calls.get(tool_id, (\x7b\x7d, 0))[0].action_input`, whose default
first component is a plain dict without an `action_input` attribute, so
`_extract_trace` raises an uncaught `AttributeError`.  This theorem
evaluates the code at the failing input. -/
theorem claim_C2 :
    extract_trace
      [.tool (pstr "never-issued-id") (pstr "retrieve_api_documentation") (pstr "doc text")]
      12 (pstr "gpt-4o") = .error .attributeError :=
  rfl

/-- C9: constructing the harness with an explicitly empty scenarios list
falls back to `DEFAULT_SCENARIOS` (Python's `or` treats `[]` like
`None`), so a constructor-built harness never holds zero scenarios. -/
theorem claim_C9 :
    initScenarios (some []) = DEFAULT_SCENARIOS ∧
    initScenarios none = DEFAULT_SCENARIOS ∧
    ∀ scenarios, initScenarios scenarios ≠ [] := by
  have hD : DEFAULT_SCENARIOS ≠ [] := by
    intro h
    exact absurd (congrArg List.length h) (by decide)
  refine ⟨rfl, rfl, fun s => ?_⟩
  match s with
  | none => exact hD
  | some [] => exact hD
  | some (a :: t) => simp [initScenarios]

/-- C9 witness: the theorem applied at a concrete one-element list. -/
theorem claim_C9_witness :
    initScenarios (some [{ request := pstr "r", expected_action := pstr "a",
                           context := {} }]) ≠ [] :=
  claim_C9.2.2 (some [{ request := pstr "r", expected_action := pstr "a", context := {} }])

/-- C4 counterexample: the claim says the template `"\x7b invalid"` yields
`(false, false, None)`.  A lone brace is literal text in Liquid, so the
template compiles, renders to itself, and the rendered text merely fails
to parse as JSON: the validator returns `(true, false, "\x7b invalid")`. -/
theorem claim_C4_counterexample :
    validate_liquid_template (pstr "\x7b invalid")
        { «variables» := [(pstr "x", .str (pstr "v"))] } =
      (true, false, some (pstr "\x7b invalid")) ∧
    validate_liquid_template (pstr "\x7b invalid")
        { «variables» := [(pstr "x", .str (pstr "v"))] } ≠
      (false, false, none) := by
  refine ⟨rfl, ?_⟩
  intro h
  have h2 : ((true, false, some (pstr "\x7b invalid")) : Bool × Bool × Option PyStr) =
      (false, false, none) :=
    (rfl : validate_liquid_template (pstr "\x7b invalid")
        { «variables» := [(pstr "x", .str (pstr "v"))] } =
      (true, false, some (pstr "\x7b invalid"))).symm.trans h
  simp at h2

/-- C4 (amended): for every template and binding the validator returns
exactly one of three outcomes — compilation failure (or render failure)
yields `(false, false, none)`; successful rendering parsing as JSON
yields `(true, true, rendered)`; successful rendering not parsing as
JSON yields `(true, false, rendered)`.  Concrete instances: `"\x7b\x7b x \x7d\x7d"`
with `x = "not json"` gives `(true, false, "not json")` and
`'\x7b "k": "\x7b\x7b x \x7d\x7d" \x7d'` with `x = "v"` gives `(true, true, '\x7b "k": "v" \x7d')`
as claimed; but `"\x7b invalid"` is *valid* Liquid (a lone brace is literal
text) and gives `(true, false, "\x7b invalid")`, while a genuinely invalid
template such as the unterminated `"\x7b\x7b x \x7d"` gives `(false, false, none)`. -/
theorem claim_C4 :
    (∀ (tmpl : PyStr) (ctx : PyContext),
      (validate_liquid_template tmpl ctx = (false, false, none) ∨
       (∃ r, validate_liquid_template tmpl ctx = (true, true, some r)) ∨
       (∃ r, validate_liquid_template tmpl ctx = (true, false, some r))) ∧
      (liquidParse tmpl = none →
        validate_liquid_template tmpl ctx = (false, false, none)) ∧
      (∀ t, liquidParse tmpl = some t →
        (∀ v, jsonLoads (liquidRender t ctx.«variables») = .ok v →
          validate_liquid_template tmpl ctx =
            (true, true, some (liquidRender t ctx.«variables»))) ∧
        (∀ e, jsonLoads (liquidRender t ctx.«variables») = .error e →
          validate_liquid_template tmpl ctx =
            (true, false, some (liquidRender t ctx.«variables»))))) ∧
    validate_liquid_template (pstr "\x7b\x7b x \x7d\x7d")
        { «variables» := [(pstr "x", .str (pstr "not json"))] } =
      (true, false, some (pstr "not json")) ∧
    validate_liquid_template (pstr "\x7b \"k\": \"\x7b\x7b x \x7d\x7d\" \x7d")
        { «variables» := [(pstr "x", .str (pstr "v"))] } =
      (true, true, some (pstr "\x7b \"k\": \"v\" \x7d")) ∧
    validate_liquid_template (pstr "\x7b invalid")
        { «variables» := [(pstr "x", .str (pstr "v"))] } =
      (true, false, some (pstr "\x7b invalid")) ∧
    validate_liquid_template (pstr "\x7b\x7b x \x7d")
        { «variables» := [(pstr "x", .str (pstr "v"))] } =
      (false, false, none) := by
  refine ⟨fun tmpl ctx => ?_, rfl, rfl, rfl, rfl⟩
  refine ⟨?_, ?_, ?_⟩
  · cases hp : liquidParse tmpl with
    | none => left; simp [validate_liquid_template, hp]
    | some t =>
      cases hj : jsonLoads (liquidRender t ctx.«variables») with
      | ok v =>
        right; left
        exact ⟨liquidRender t ctx.«variables», by simp [validate_liquid_template, hp, hj]⟩
      | error e =>
        right; right
        exact ⟨liquidRender t ctx.«variables», by simp [validate_liquid_template, hp, hj]⟩
  · intro hp
    simp [validate_liquid_template, hp]
  · intro t hp
    constructor
    · intro v hj
      simp [validate_liquid_template, hp, hj]
    · intro e hj
      simp [validate_liquid_template, hp, hj]

/-- C4 witness: the causal implications of the amended theorem applied at
the concrete instances. -/
theorem claim_C4_witness :
    validate_liquid_template (pstr "\x7b\x7b x \x7d")
        { «variables» := [(pstr "x", .str (pstr "v"))] } = (false, false, none) ∧
    validate_liquid_template (pstr "\x7b invalid")
        { «variables» := [(pstr "x", .str (pstr "v"))] } =
      (true, false, some (liquidRender [.lit '{', .lit ' ', .lit 'i', .lit 'n',
        .lit 'v', .lit 'a', .lit 'l', .lit 'i', .lit 'd'] [(pstr "x", .str (pstr "v"))])) :=
  ⟨(claim_C4.1 (pstr "\x7b\x7b x \x7d")
      { «variables» := [(pstr "x", .str (pstr "v"))] }).2.1 rfl,
   ((claim_C4.1 (pstr "\x7b invalid")
      { «variables» := [(pstr "x", .str (pstr "v"))] }).2.2 _ rfl).2 (pstr "Expecting value") rfl⟩

/-- A double filter as one filter over the conjunction: used to restate
the metrics in the claim's "count of error-free results with
`action_correct` true" form. -/
theorem filter_filter_and {α : Type} (p q : α → Bool) (l : List α) :
    (l.filter p).filter q = l.filter (fun a => p a && q a) := by
  induction l with
  | nil => rfl
  | cons a t ih =>
    cases hp : p a <;> cases hq : q a <;>
      simp only [List.filter_cons, hp, hq, Bool.false_and, Bool.true_and,
        if_false, if_true, ih, Bool.false_eq_true, ite_false, ite_true]

/-- C3 counterexample: the claim asserts, for *every* list of scenario
results, that no metric computation raises on an empty denominator; but
`error_rate` divides by `len(scenario_results)` unguarded, so on an
empty list the code raises `ZeroDivisionError`. -/
theorem claim_C3_counterexample :
    computeMetrics [] = .error .zeroDivisionError := rfl

/-- C3 (amended): for every *non-empty* list of scenario results,
`action_accuracy` is the count of error-free results with
`action_correct` true over the count of error-free results times 100
(0 when there are no error-free results) and `error_rate` is the count
of errored results over the total count times 100; on the 4-scenario
batch with 3 error-free results, 2 of them correct and 1 errored,
`action_accuracy = 200/3` (the spec's 66.7%) and `error_rate = 25`.
On the empty list `error_rate`'s division by the total raises. -/
theorem claim_C3 :
    (∀ rs : List ScenarioResult, rs ≠ [] →
      ∃ m, computeMetrics rs = .ok m ∧
        m.action_accuracy =
          (if rs.countP (fun r => r.error.isNone) = 0 then 0
           else (rs.countP (fun r => r.error.isNone && r.action_correct) : ℚ) /
             (rs.countP (fun r => r.error.isNone) : ℚ) * 100) ∧
        m.error_rate =
          (rs.countP (fun r => r.error.isSome) : ℚ) / (rs.length : ℚ) * 100) ∧
    computeMetrics c3Demo =
      .ok { action_accuracy := 200 / 3, liquid_valid := 0, renders_to_json := 0,
            avg_latency_ms := 0, error_rate := 25 } := by
  refine ⟨?_, by norm_num [computeMetrics, c3Demo]⟩
  intro rs hne
  have hE : rs.isEmpty = false := by
    cases rs with
    | nil => exact absurd rfl hne
    | cons a t => rfl
  cases hM : computeMetrics rs with
  | error e => exact absurd hM (by simp [computeMetrics, hE])
  | ok m =>
    have hm := hM
    simp only [computeMetrics, hE, Bool.false_eq_true, if_false, Except.ok.injEq] at hm
    refine ⟨m, rfl, ?_, ?_⟩
    · rw [← hm]
      by_cases hc : rs.countP (fun r => r.error.isNone) = 0
      · have hf : (rs.filter (fun r => r.error.isNone)) = [] := by
          rw [List.countP_eq_length_filter] at hc
          exact List.length_eq_zero.mp hc
        simp [hf, hc]
      · have hf : (rs.filter (fun r => r.error.isNone)).isEmpty = false := by
          rw [List.countP_eq_length_filter] at hc
          cases hfe : rs.filter (fun r => r.error.isNone) with
          | nil => rw [hfe] at hc; exact absurd rfl hc
          | cons a t => rfl
        rw [if_neg hc]
        simp only [hf, Bool.false_eq_true, if_false]
        simp only [filter_filter_and, List.countP_eq_length_filter]
    · rw [← hm]
      rw [List.countP_eq_length_filter]

/-- C3 witness: the amended theorem applied to the concrete 4-scenario
batch. -/
theorem claim_C3_witness :
    ∃ m, computeMetrics c3Demo = .ok m ∧
      m.action_accuracy =
        (if c3Demo.countP (fun r => r.error.isNone) = 0 then 0
         else (c3Demo.countP (fun r => r.error.isNone && r.action_correct) : ℚ) /
           (c3Demo.countP (fun r => r.error.isNone) : ℚ) * 100) ∧
      m.error_rate =
        (c3Demo.countP (fun r => r.error.isSome) : ℚ) / (c3Demo.length : ℚ) * 100 :=
  claim_C3.1 c3Demo (by
    intro h
    exact absurd (congrArg List.length h) (by decide))

/-- The tool-call loop of the AI branch never touches `tool_calls_list`. -/
theorem foldl_aiToolStep_tool_calls (tcs : List ToolCallReq) (st : TraceState) :
    (tcs.foldl aiToolStep st).tool_calls_list = st.tool_calls_list := by
  induction tcs generalizing st with
  | nil => rfl
  | cons h t ih =>
    rw [List.foldl_cons, ih]
    rfl

/-- The AI branch never touches `tool_calls_list`. -/
theorem aiStep_tool_calls (st : TraceState) (c : PyStr) (tcs : List ToolCallReq) :
    (aiStep st c tcs).tool_calls_list = st.tool_calls_list := by
  unfold aiStep
  rw [foldl_aiToolStep_tool_calls]
  split <;> rfl

/-- Every `ToolCall` a loop iteration appends has `duration_ms = 0`
(the source writes the literal `duration_ms=0`). -/
theorem processMessage_duration_inv (st st' : TraceState) (msg : Message)
    (h : processMessage st msg = .ok st')
    (inv : ∀ tc ∈ st.tool_calls_list, tc.duration_ms = 0) :
    ∀ tc ∈ st'.tool_calls_list, tc.duration_ms = 0 := by
  cases msg with
  | system c =>
    injection h with h
    rw [← h]; exact inv
  | human c =>
    injection h with h
    rw [← h]; exact inv
  | ai content tcs =>
    injection h with h
    rw [← h, aiStep_tool_calls]
    exact inv
  | tool id name content =>
    simp only [processMessage, toolStep] at h
    cases hp : alistGet st.pending id with
    | none =>
      rw [hp] at h
      exact Except.noConfusion h
    | some p =>
      rw [hp] at h
      simp only [Except.ok.injEq] at h
      subst h
      intro tc htc
      simp only [List.mem_append, List.mem_singleton] at htc
      rcases htc with htc | htc
      · cases hg : st.steps.get? p.2 with
        | none => rw [hg] at htc; exact inv tc htc
        | some step0 => rw [hg] at htc; exact inv tc htc
      · rw [htc]

/-- The `for msg in messages` loop preserves the all-zero-durations
invariant of the accumulated `tool_calls_list`. -/
theorem foldlM_duration_inv (msgs : List Message) (st st' : TraceState)
    (h : List.foldlM processMessage st msgs = .ok st')
    (inv : ∀ tc ∈ st.tool_calls_list, tc.duration_ms = 0) :
    ∀ tc ∈ st'.tool_calls_list, tc.duration_ms = 0 := by
  induction msgs generalizing st with
  | nil =>
    injection h with h
    rw [← h]; exact inv
  | cons msg rest ih =>
    rw [List.foldlM_cons] at h
    cases hp : processMessage st msg with
    | error e =>
      rw [hp] at h
      exact Except.noConfusion h
    | ok s1 =>
      rw [hp] at h
      exact ih s1 h (processMessage_duration_inv st s1 msg hp inv)

/-- C10: every `ToolCall` record produced by trace reconstruction has
`duration_ms = 0`: per-tool timing is never measured. -/
theorem claim_C10 (msgs : List Message) (d : ℚ) (m : PyStr) (tr : AgentTrace)
    (h : extract_trace msgs d m = .ok tr) :
    ∀ tc ∈ tr.tool_calls, tc.duration_ms = 0 := by
  unfold extract_trace at h
  cases hf : List.foldlM processMessage
      { steps := [], tool_calls_list := [], step_number := 1, pending := [] } msgs with
  | error e =>
    rw [hf] at h
    exact Except.noConfusion h
  | ok st =>
    rw [hf] at h
    injection h with h
    rw [← h]
    exact foldlM_duration_inv msgs _ st hf (by intro tc htc; cases htc)

/-- C10 witness: a concrete transcript with one matched tool call. -/
theorem claim_C10_witness :
    ({ tool_name := pstr "t", tool_input := [], tool_output := pstr "o",
       duration_ms := 0 } : ToolCall).duration_ms = 0 :=
  claim_C10
    [.ai [] [{ name := some (pstr "t"), args := some [], id := some (pstr "i") }],
     .tool (pstr "i") (pstr "t") (pstr "o")]
    5 (pstr "m")
    { steps := [{ step_number := 1,
                  thought := some (pstr "Calling t to gather more information."),
                  action := some (pstr "Call tool: t"),
                  action_input := some [],
                  observation := some (pstr "o") }],
      tool_calls := [{ tool_name := pstr "t", tool_input := [],
                       tool_output := pstr "o", duration_ms := 0 }],
      total_duration_ms := 5, model_name := pstr "m", token_usage := [] }
    rfl
    { tool_name := pstr "t", tool_input := [], tool_output := pstr "o", duration_ms := 0 }
    (List.mem_singleton.mpr rfl)

/-- C5: a raising agent function yields a result with `error` set to the
stringified exception, `latency_ms = 0` and all boolean fields at their
default `false`; and a raise on scenario 2 of 4 leaves scenarios 1, 3
and 4 with complete, error-free results. -/
theorem claim_C5 :
    (∀ (sc : TestScenario) (id : Nat)
       (fn : PyStr → PyContext → Except PyStr AgentResponse) (t : ℚ) (e : PyStr),
       fn sc.request sc.context = .error e →
       run_scenario sc id fn t =
         { scenario_id := id, request := sc.request,
           expected_action := sc.expected_action,
           actual_action := none, action_correct := false, liquid_valid := false,
           renders_to_json := false, reasoning := [], proposed_config := [],
           rendered_config := none, latency_ms := 0, error := some e }) ∧
    (∀ (s1 s2 s3 s4 : TestScenario)
       (fn : PyStr → PyContext → Except PyStr AgentResponse)
       (t : Nat → ℚ) (e : PyStr) (r1 r3 r4 : AgentResponse),
       fn s1.request s1.context = .ok r1 →
       fn s2.request s2.context = .error e →
       fn s3.request s3.context = .ok r3 →
       fn s4.request s4.context = .ok r4 →
       ∃ a b c d, runScenarios [s1, s2, s3, s4] fn t = [a, b, c, d] ∧
         a.error = none ∧ c.error = none ∧ d.error = none ∧
         b.error = some e ∧ b.latency_ms = 0 ∧ b.action_correct = false ∧
         b.liquid_valid = false ∧ b.renders_to_json = false) := by
  constructor
  · intro sc id fn t e h
    simp only [run_scenario, h]
  · intro s1 s2 s3 s4 fn t e r1 r3 r4 h1 h2 h3 h4
    refine ⟨run_scenario s1 0 fn (t 0), run_scenario s2 1 fn (t 1),
            run_scenario s3 2 fn (t 2), run_scenario s4 3 fn (t 3),
            rfl, ?_, ?_, ?_, ?_, ?_, ?_, ?_, ?_⟩ <;>
      simp only [run_scenario, h1, h2, h3, h4]

/-- C5 witness: both parts of the theorem applied to the mock run. -/
theorem claim_C5_witness :
    run_scenario (c5Scenario "r2") 1 c5AgentFn 7 =
      { scenario_id := 1, request := (c5Scenario "r2").request,
        expected_action := (c5Scenario "r2").expected_action,
        actual_action := none, action_correct := false, liquid_valid := false,
        renders_to_json := false, reasoning := [], proposed_config := [],
        rendered_config := none, latency_ms := 0, error := some (pstr "boom") } ∧
    (∃ a b c d,
      runScenarios [c5Scenario "r1", c5Scenario "r2", c5Scenario "r3", c5Scenario "r4"]
        c5AgentFn (fun _ => 7) = [a, b, c, d] ∧
      a.error = none ∧ c.error = none ∧ d.error = none ∧
      b.error = some (pstr "boom") ∧ b.latency_ms = 0 ∧ b.action_correct = false ∧
      b.liquid_valid = false ∧ b.renders_to_json = false) :=
  ⟨claim_C5.1 (c5Scenario "r2") 1 c5AgentFn 7 (pstr "boom") rfl,
   claim_C5.2 (c5Scenario "r1") (c5Scenario "r2") (c5Scenario "r3") (c5Scenario "r4")
     c5AgentFn (fun _ => 7) (pstr "boom")
     { selected_action := pstr "a", reasoning := [], proposed_config := pstr "\x7b\x7d" }
     { selected_action := pstr "a", reasoning := [], proposed_config := pstr "\x7b\x7d" }
     { selected_action := pstr "a", reasoning := [], proposed_config := pstr "\x7b\x7d" }
     rfl rfl rfl rfl⟩

/-- C8: when the structured parse fails and the regex fallback recovers
no `selected_action`, extraction returns the sentinel response:
`selected_action = "parse_error"`, `proposed_config = "\x7b\x7d"`, and a
reasoning that starts with "Failed to parse" and embeds at most the
first 500 characters of the raw text. -/
theorem claim_C8 (output e : PyStr)
    (h1 : jsonLoads (candidate output) = .error e)
    (h2 : extract_field output (pstr "selected_action") = none) :
    parse_response output = .ok
      { selected_action := pstr "parse_error",
        reasoning := pstr "Failed to parse agent output: " ++ e ++
          pstr "\nRaw output: " ++ output.take 500,
        proposed_config := pstr "\x7b\x7d" } ∧
    (∃ post, pstr "Failed to parse agent output: " ++ e ++
        pstr "\nRaw output: " ++ output.take 500 = pstr "Failed to parse" ++ post) ∧
    (output.take 500).length ≤ 500 := by
  refine ⟨?_, ?_, ?_⟩
  · simp only [parse_response, h1, h2]
    simp [pyOrStr]
  · refine ⟨pstr " agent output: " ++ e ++ pstr "\nRaw output: " ++ output.take 500, ?_⟩
    rw [show pstr "Failed to parse agent output: " =
        pstr "Failed to parse" ++ pstr " agent output: " from rfl]
    simp [List.append_assoc]
  · rw [List.length_take]
    exact min_le_left _ _

/-- C8 witness: the theorem applied to the raw text `"not json at all"`. -/
theorem claim_C8_witness :
    parse_response (pstr "not json at all") = .ok
      { selected_action := pstr "parse_error",
        reasoning := pstr "Failed to parse agent output: " ++ pstr "Expecting value" ++
          pstr "\nRaw output: " ++ (pstr "not json at all").take 500,
        proposed_config := pstr "\x7b\x7d" } ∧
    (∃ post, pstr "Failed to parse agent output: " ++ pstr "Expecting value" ++
        pstr "\nRaw output: " ++ (pstr "not json at all").take 500 =
      pstr "Failed to parse" ++ post) ∧
    ((pstr "not json at all").take 500).length ≤ 500 :=
  claim_C8 (pstr "not json at all") (pstr "Expecting value") rfl rfl

/-- `re.search` skips any prefix containing no quote character: the
field pattern starts with `"`. -/
theorem regexSearch_skip (f p rest : PyStr) (hp : '"' ∉ p) :
    regexSearch f (p ++ rest) = regexSearch f rest := by
  induction p with
  | nil => rfl
  | cons c p' ih =>
    have hc : ('"' == c) = false := by
      apply beq_eq_false_iff_ne.mpr
      intro hcc
      exact hp (by rw [hcc]; exact List.mem_cons_self _ _)
    have hm : matchField f (c :: (p' ++ rest)) = none := by
      unfold matchField
      have hpre : ((('"' :: f) ++ ['"']).isPrefixOf (c :: (p' ++ rest))) = false := by
        simp only [List.cons_append, List.isPrefixOf, hc, Bool.false_and]
      rw [hpre]
      simp
    rw [List.cons_append]
    show (match matchField f (c :: (p' ++ rest)) with
          | some v => some v
          | none => regexSearch f (p' ++ rest)) = regexSearch f rest
    rw [hm]
    exact ih (fun hmem => hp (List.mem_cons_of_mem _ hmem))

/-- C7: when the structured parse fails but the raw text contains the
quoted field `"selected_action": "slack_post_message"` (with no quote
character before it, so this is the first field match), extraction
returns `selected_action = "slack_post_message"` — not `"parse_error"` —
with `reasoning` and `proposed_config` each regex-extracted individually
or defaulted when absent. -/
theorem claim_C7 (p1 p2 e : PyStr)
    (hq : '"' ∉ p1)
    (h1 : jsonLoads (candidate
        (p1 ++ pstr "\"selected_action\": \"slack_post_message\"" ++ p2)) = .error e) :
    parse_response (p1 ++ pstr "\"selected_action\": \"slack_post_message\"" ++ p2) =
      .ok { selected_action := pstr "slack_post_message",
            reasoning := pyOrStr
              (extract_field (p1 ++ pstr "\"selected_action\": \"slack_post_message\"" ++ p2)
                (pstr "reasoning"))
              (pstr "Parse failed: " ++ e),
            proposed_config := pyOrStr
              (extract_field (p1 ++ pstr "\"selected_action\": \"slack_post_message\"" ++ p2)
                (pstr "proposed_config"))
              (pstr "\x7b\x7d") } := by
  have hsa : extract_field
      (p1 ++ pstr "\"selected_action\": \"slack_post_message\"" ++ p2)
      (pstr "selected_action") = some (pstr "slack_post_message") := by
    unfold extract_field
    rw [List.append_assoc, regexSearch_skip _ _ _ hq]
    rfl
  simp only [parse_response, h1, hsa]
  rw [show pyOrStr (some (pstr "slack_post_message")) (pstr "parse_error") =
      pstr "slack_post_message" from rfl]
  rw [if_pos (show pstr "slack_post_message" ≠ pstr "parse_error" by decide)]

/-- C7 witness: the theorem applied to a concrete truncated JSON text. -/
theorem claim_C7_witness :
    parse_response (pstr "\x7b " ++ pstr "\"selected_action\": \"slack_post_message\"" ++
        pstr ", \"reasoning\": \"truncated") =
      .ok { selected_action := pstr "slack_post_message",
            reasoning := pyOrStr
              (extract_field (pstr "\x7b " ++ pstr "\"selected_action\": \"slack_post_message\"" ++
                  pstr ", \"reasoning\": \"truncated")
                (pstr "reasoning"))
              (pstr "Parse failed: " ++ pstr "Expecting value"),
            proposed_config := pyOrStr
              (extract_field (pstr "\x7b " ++ pstr "\"selected_action\": \"slack_post_message\"" ++
                  pstr ", \"reasoning\": \"truncated")
                (pstr "proposed_config"))
              (pstr "\x7b\x7d") } :=
  claim_C7 (pstr "\x7b ") (pstr ", \"reasoning\": \"truncated") (pstr "Expecting value")
    (by decide) rfl

/-- A benign string is decoded verbatim by the JSON string parser. -/
theorem parseJString_benign (s : PyStr) (rest : PyStr) (hs : benign s) :
    parseJString (s ++ '"' :: rest) = some (s, rest) := by
  induction s with
  | nil => rfl
  | cons ch s' ih =>
    obtain ⟨h1, h2, _, h4⟩ := hs ch (List.mem_cons_self _ _)
    have hb1 : (ch == '"') = false := beq_eq_false_iff_ne.mpr h1
    have hb2 : (ch == '\\') = false := beq_eq_false_iff_ne.mpr h2
    rw [List.cons_append, parseJString.eq_def]
    simp only [hb1, hb2, Bool.false_eq_true, if_false]
    rw [if_neg (by omega), ih (fun x hx => hs x (List.mem_cons_of_mem _ hx))]

/-- Skipping whitespace does not move past a non-whitespace head. -/
theorem skipWs_cons_not (ch : Char) (t : PyStr) (h : jsonWs ch = false) :
    skipWs (ch :: t) = ch :: t := by
  simp [skipWs, List.dropWhile_cons, h]

/-- Every list is a Boolean prefix of itself followed by anything. -/
theorem isPrefixOf_self_append (l t : List Char) : l.isPrefixOf (l ++ t) = true := by
  induction l with
  | nil => simp [List.isPrefixOf]
  | cons ch l' ih => simp [List.isPrefixOf, ih]

/-- Python `str.find` through a prefix free of the needle's first character:
the first occurrence lies past the prefix. -/
theorem firstIdx_append_notMem (sub : PyStr) (h : Char) (hh : sub.head? = some h)
    (p t : PyStr) (hp : h ∉ p) :
    firstIdx sub (p ++ t) = (firstIdx sub t).map (· + p.length) := by
  induction p with
  | nil =>
    simp only [List.nil_append, List.length_nil]
    cases firstIdx sub t <;> simp
  | cons ch p' ih =>
    obtain ⟨sub', hsub⟩ : ∃ sub', sub = h :: sub' := by
      cases sub with
      | nil => cases hh
      | cons x xs =>
        injection hh with hx
        exact ⟨xs, by rw [hx]⟩
    have hc : (h == ch) = false := by
      apply beq_eq_false_iff_ne.mpr
      intro hcc
      exact hp (by rw [hcc]; exact List.mem_cons_self _ _)
    have hpre : (sub.isPrefixOf (ch :: (p' ++ t))) = false := by
      rw [hsub]
      simp [List.isPrefixOf, hc]
    rw [List.cons_append]
    show (if sub.isPrefixOf (ch :: (p' ++ t)) then some 0
          else (firstIdx sub (p' ++ t)).map (· + 1)) = _
    rw [hpre]
    simp only [Bool.false_eq_true, if_false]
    rw [ih (fun hmem => hp (List.mem_cons_of_mem _ hmem))]
    cases firstIdx sub t <;> simp [List.length_cons] <;> omega

/-- Dropping a prefix plus `n` more elements. -/
theorem drop_append_plus (p Z : List Char) (n : Nat) :
    (p ++ Z).drop (p.length + n) = Z.drop n := by
  induction p with
  | nil => simp
  | cons ch p' ih =>
    rw [List.cons_append, List.length_cons]
    rw [show p'.length + 1 + n = (p'.length + n) + 1 by omega]
    rw [List.drop_succ_cons]
    exact ih

/-- Taking exactly a prefix. -/
theorem take_append_len (p Z : List Char) :
    (p ++ Z).take p.length = p := by
  induction p with
  | nil => rfl
  | cons ch p' ih =>
    rw [List.cons_append, List.length_cons, List.take_succ_cons, ih]

/-- A quoted benign string literal parses as a JSON string value. -/
theorem parseValue_strLit (n : Nat) (v t : PyStr) (hv : benign v) :
    parseValue (n + 1) ('"' :: (v ++ ('"' :: t))) = some (.str v, t) := by
  show (match parseJString (v ++ ('"' :: t)) with
        | some (str, r) => some (Json.str str, r)
        | none => none) = some (.str v, t)
  rw [parseJString_benign v t hv]

/-- One `"key": "value"` member (benign key and value) of an object:
`parseMembers` consumes it and dispatches on what follows. -/
theorem parseMembers_strMember (n : Nat) (key v t : PyStr)
    (hkey : benign key) (hv : benign v) :
    parseMembers (n + 2) ('"' :: (key ++ ('"' :: ':' :: '"' :: (v ++ ('"' :: t))))) =
      (match skipWs t with
       | ',' :: r4 =>
         (match parseMembers (n + 1) r4 with
          | some (ms, r5) => some ((key, Json.str v) :: ms, r5)
          | none => none)
       | '}' :: r4 => some ([(key, Json.str v)], r4)
       | _ => none) := by
  have step1 : parseMembers (n + 2)
      ('"' :: (key ++ ('"' :: ':' :: '"' :: (v ++ ('"' :: t))))) =
      (match parseJString (key ++ ('"' :: ':' :: '"' :: (v ++ ('"' :: t)))) with
       | some (k, r1) =>
         (match skipWs r1 with
          | ':' :: r2 =>
            (match parseValue (n + 1) r2 with
             | some (val, r3) =>
               (match skipWs r3 with
                | ',' :: r4 =>
                  (match parseMembers (n + 1) r4 with
                   | some (ms, r5) => some ((k, val) :: ms, r5)
                   | none => none)
                | '}' :: r4 => some ([(k, val)], r4)
                | _ => none)
             | none => none)
          | _ => none)
       | none => none) := rfl
  rw [step1, parseJString_benign key _ hkey]
  simp only []
  rw [skipWs_cons_not _ _ (by decide)]
  simp only []
  rw [parseValue_strLit n v t hv]

/-- The claim's three-field JSON object parses to exactly its three
members (benign field values appear verbatim). -/
theorem parseValue_jsonOf (n : Nat) (a r c : PyStr)
    (ha : benign a) (hr : benign r) (hc : benign c) :
    parseValue (n + 5) (jsonOf a r c) =
      some (.obj [(pstr "selected_action", .str a), (pstr "reasoning", .str r),
                  (pstr "proposed_config", .str c)], []) := by
  have step1 : parseValue (n + 5) (jsonOf a r c) =
      (match (parseMembers ((n + 2) + 2)
        ('"' :: (pstr "selected_action" ++ ('"' :: ':' :: '"' ::
          (a ++ ('"' :: (',' :: '"' :: (pstr "reasoning" ++ ('"' :: ':' :: '"' ::
            (r ++ ('"' :: (',' :: '"' :: (pstr "proposed_config" ++ ('"' :: ':' :: '"' ::
              (c ++ ('"' :: ['}'])))))))))))))))) with
       | some (ms, r3) => some (Json.obj ms, r3)
       | none => none) := rfl
  rw [step1]
  rw [parseMembers_strMember (n + 2) (pstr "selected_action") a _ (by decide) ha]
  rw [skipWs_cons_not _ _ (by decide)]
  simp only []
  rw [show ((n + 2) + 1 : Nat) = (n + 1) + 2 from rfl]
  rw [parseMembers_strMember (n + 1) (pstr "reasoning") r _ (by decide) hr]
  rw [skipWs_cons_not _ _ (by decide)]
  simp only []
  rw [show ((n + 1) + 1 : Nat) = n + 2 from rfl]
  rw [parseMembers_strMember n (pstr "proposed_config") c _ (by decide) hc]
  rfl

/-- The structured parse of the claim's three-field object document. -/
theorem jsonLoads_jsonOf (a r c : PyStr)
    (ha : benign a) (hr : benign r) (hc : benign c) :
    jsonLoads (jsonOf a r c) =
      .ok (.obj [(pstr "selected_action", .str a), (pstr "reasoning", .str r),
                 (pstr "proposed_config", .str c)]) := by
  have h4 : 4 ≤ (jsonOf a r c).length := by
    unfold jsonOf
    simp only [List.length_append]
    rw [show (pstr "\x7b\"selected_action\":\"").length = 20 from rfl]
    omega
  have hlen : (jsonOf a r c).length + 1 = ((jsonOf a r c).length - 4) + 5 := by omega
  unfold jsonLoads
  rw [hlen, parseValue_jsonOf _ a r c ha hr hc]
  rfl

/-- A needle at the very start is found at index 0. -/
theorem firstIdx_self_append (sub t : PyStr) (h : sub ≠ []) :
    firstIdx sub (sub ++ t) = some 0 := by
  cases sub with
  | nil => exact absurd rfl h
  | cons ch s' =>
    rw [List.cons_append, firstIdx.eq_def]
    simp [List.isPrefixOf, isPrefixOf_self_append]

/-- Stripping a string wrapped in single newlines, when the string starts
and ends with non-whitespace. -/
theorem pyStrip_sandwich (x : PyStr) (c1 : Char) (t : PyStr) (y : PyStr) (c2 : Char)
    (hx : x = c1 :: t) (hy : x = y ++ [c2])
    (hc1 : pyIsSpace c1 = false) (hc2 : pyIsSpace c2 = false) :
    pyStrip ('\n' :: (x ++ ['\n'])) = x := by
  unfold pyStrip
  have d1 : List.dropWhile pyIsSpace ('\n' :: (x ++ ['\n'])) = x ++ ['\n'] := by
    rw [List.dropWhile_cons]
    simp only [show pyIsSpace '\n' = true from rfl, if_true]
    rw [hx, List.cons_append, List.dropWhile_cons]
    simp only [hc1, Bool.false_eq_true, if_false]
  rw [d1]
  have d2 : List.dropWhile pyIsSpace (x ++ ['\n']).reverse = x.reverse := by
    rw [List.reverse_append]
    simp only [List.reverse_cons, List.reverse_nil, List.nil_append, List.singleton_append]
    rw [List.dropWhile_cons]
    simp only [show pyIsSpace '\n' = true from rfl, if_true]
    rw [hy, List.reverse_append]
    simp only [List.reverse_cons, List.reverse_nil, List.nil_append, List.singleton_append]
    rw [List.dropWhile_cons]
    simp only [hc2, Bool.false_eq_true, if_false]
  rw [d2, List.reverse_reverse]

/-- The candidate extracted from a ```json fenced block surrounded by
prose: everything between the opening fence and the next fence,
stripped. -/
theorem candidate_fenced (a r c p1 p2 : PyStr)
    (ha : benign a) (hr : benign r) (hc : benign c) (hp : btick ∉ p1) :
    candidate (p1 ++ (pstr "```json\n" ++ (jsonOf a r c ++ (pstr "\n```" ++ p2)))) =
      jsonOf a r c := by
  have hjson : btick ∉ jsonOf a r c := by
    unfold jsonOf
    intro hmem
    simp only [List.mem_append] at hmem
    rcases hmem with h | h | h | h | h | h | h
    · exact absurd h (by decide)
    · exact (ha btick h).2.2.1 rfl
    · exact absurd h (by decide)
    · exact (hr btick h).2.2.1 rfl
    · exact absurd h (by decide)
    · exact (hc btick h).2.2.1 rfl
    · exact absurd h (by decide)
  have hbn : btick ∉ ('\n' :: (jsonOf a r c ++ ['\n'])) := by
    intro hmem
    rcases List.mem_cons.mp hmem with h | h
    · exact absurd h (by decide)
    · rcases List.mem_append.mp h with h | h
      · exact hjson h
      · exact absurd h (by decide)
  have hstep1 : firstIdx fenceJson
      (p1 ++ (pstr "```json\n" ++ (jsonOf a r c ++ (pstr "\n```" ++ p2)))) =
      some (0 + p1.length) := by
    rw [firstIdx_append_notMem fenceJson btick (by decide) p1 _ hp]
    rw [show (pstr "```json\n" ++ (jsonOf a r c ++ (pstr "\n```" ++ p2))) =
        fenceJson ++ ('\n' :: (jsonOf a r c ++ (pstr "\n```" ++ p2))) from rfl]
    rw [firstIdx_self_append fenceJson _ (by decide)]
    rfl
  have hdrop : (p1 ++ (pstr "```json\n" ++ (jsonOf a r c ++ (pstr "\n```" ++ p2)))).drop
      ((0 + p1.length) + 7) =
      ('\n' :: (jsonOf a r c ++ ['\n'])) ++ (pstr "```" ++ p2) := by
    rw [show (0 + p1.length) + 7 = p1.length + 7 by omega]
    rw [drop_append_plus]
    rw [show (pstr "```json\n" ++ (jsonOf a r c ++ (pstr "\n```" ++ p2))).drop 7 =
        '\n' :: (jsonOf a r c ++ (pstr "\n```" ++ p2)) from rfl]
    rw [show (pstr "\n```" ++ p2 : PyStr) = ['\n'] ++ (pstr "```" ++ p2) from rfl]
    simp [List.append_assoc]
  have hfi2 : firstIdxFrom fence
      (p1 ++ (pstr "```json\n" ++ (jsonOf a r c ++ (pstr "\n```" ++ p2))))
      ((0 + p1.length) + 7) =
      some ((0 + ('\n' :: (jsonOf a r c ++ ['\n'])).length) + ((0 + p1.length) + 7)) := by
    unfold firstIdxFrom
    rw [hdrop]
    rw [firstIdx_append_notMem fence btick (by decide) _ _ hbn]
    rw [show (pstr "```" ++ p2 : PyStr) = fence ++ p2 from rfl]
    rw [firstIdx_self_append fence p2 (by decide)]
    rfl
  have hslice : pySlice
      (p1 ++ (pstr "```json\n" ++ (jsonOf a r c ++ (pstr "\n```" ++ p2))))
      ((0 + p1.length) + 7)
      ((0 + ('\n' :: (jsonOf a r c ++ ['\n'])).length) + ((0 + p1.length) + 7)) =
      '\n' :: (jsonOf a r c ++ ['\n']) := by
    unfold pySlice
    rw [hdrop]
    rw [show ((0 + ('\n' :: (jsonOf a r c ++ ['\n'])).length) + ((0 + p1.length) + 7)) -
        ((0 + p1.length) + 7) = ('\n' :: (jsonOf a r c ++ ['\n'])).length by omega]
    exact take_append_len _ _
  have hstrip : pyStrip ('\n' :: (jsonOf a r c ++ ['\n'])) = jsonOf a r c := by
    refine pyStrip_sandwich (jsonOf a r c) '{'
      (pstr "\"selected_action\":\"" ++ (a ++ (pstr "\",\"reasoning\":\"" ++
        (r ++ (pstr "\",\"proposed_config\":\"" ++ (c ++ pstr "\"\x7d"))))))
      (pstr "\x7b\"selected_action\":\"" ++ (a ++ (pstr "\",\"reasoning\":\"" ++
        (r ++ (pstr "\",\"proposed_config\":\"" ++ (c ++ pstr "\""))))))
      '}' rfl ?_ rfl rfl
    unfold jsonOf
    simp only [List.append_assoc]
    rw [show (pstr "\"" ++ ['}'] : PyStr) = pstr "\"\x7d" from rfl]
  unfold candidate
  rw [hstep1]
  simp only []
  rw [hfi2]
  simp only []
  rw [hslice, hstrip]

/-- C6 (round-trip): a well-formed three-field JSON object embedded in a
```json fenced block inside surrounding prose is extracted exactly: the
candidate is the substring between the opening fence and the next fence,
and the parsed response carries the three field values verbatim.
`benign` restricts field values to characters needing no JSON escaping
(and excludes backticks, which would end the fenced block); the prose
before the fence must not contain a backtick, which would start an
earlier fence. -/
theorem claim_C6 (a r c p1 p2 : PyStr)
    (ha : benign a) (hr : benign r) (hc : benign c) (hp : btick ∉ p1) :
    candidate (p1 ++ (pstr "```json\n" ++ (jsonOf a r c ++ (pstr "\n```" ++ p2)))) =
      jsonOf a r c ∧
    parse_response (p1 ++ (pstr "```json\n" ++ (jsonOf a r c ++ (pstr "\n```" ++ p2)))) =
      .ok { selected_action := a, reasoning := r, proposed_config := c } := by
  have hcand := candidate_fenced a r c p1 p2 ha hr hc hp
  refine ⟨hcand, ?_⟩
  have g1 : dictGet [(pstr "selected_action", Json.str a), (pstr "reasoning", Json.str r),
      (pstr "proposed_config", Json.str c)] (pstr "selected_action")
      (.str (pstr "unknown")) = .str a := rfl
  have g2 : dictGet [(pstr "selected_action", Json.str a), (pstr "reasoning", Json.str r),
      (pstr "proposed_config", Json.str c)] (pstr "reasoning")
      (.str (pstr "No reasoning provided")) = .str r := rfl
  have g3 : dictGet [(pstr "selected_action", Json.str a), (pstr "reasoning", Json.str r),
      (pstr "proposed_config", Json.str c)] (pstr "proposed_config")
      (.str (pstr "\x7b\x7d")) = .str c := rfl
  simp only [parse_response, hcand, jsonLoads_jsonOf a r c ha hr hc, g1, g2, g3]

/-- C6 witness: the theorem applied at concrete field values and prose. -/
theorem claim_C6_witness :
    candidate (pstr "Here is the result:\n" ++ (pstr "```json\n" ++
      (jsonOf (pstr "A") (pstr "R") (pstr "C") ++ (pstr "\n```" ++ pstr "\nDone.")))) =
      jsonOf (pstr "A") (pstr "R") (pstr "C") ∧
    parse_response (pstr "Here is the result:\n" ++ (pstr "```json\n" ++
      (jsonOf (pstr "A") (pstr "R") (pstr "C") ++ (pstr "\n```" ++ pstr "\nDone.")))) =
      .ok { selected_action := pstr "A", reasoning := pstr "R",
            proposed_config := pstr "C" } :=
  claim_C6 (pstr "A") (pstr "R") (pstr "C") (pstr "Here is the result:\n")
    (pstr "\nDone.") (by decide) (by decide) (by decide) (by decide)
